import Mathlib

/-!
A shallow embedding of the somd2 runner core, covering
src/somd2/runner/_dynamics.py and src/somd2/runner/_runner.py.
Machine floats of the Python source are modelled as exact rationals,
Python exceptions as Except values, and the mutable objects the claims
mention (the GPU pool, the shared configuration, Python list objects)
as explicit state that each modelled operation threads through.
-/

namespace Somd2

/-- Python int(q) on a rational: truncation toward zero. -/
def pyInt (q : ℚ) : ℤ := if 0 ≤ q then ⌊q⌋ else ⌈q⌉

/-- Python round-half-to-even of a rational to the nearest integer. -/
def roundHalfEven (q : ℚ) : ℤ :=
  if q - ⌊q⌋ < 1/2 then ⌊q⌋
  else if 1/2 < q - ⌊q⌋ then ⌊q⌋ + 1
  else if ⌊q⌋ % 2 = 0 then ⌊q⌋ else ⌊q⌋ + 1

/-- Python round(q, n) to n decimal places, half to even. -/
def pyRound (n : ℕ) (q : ℚ) : ℚ := (roundHalfEven (q * 10 ^ n) : ℚ) / 10 ^ n

/-- The helper generate_lam_vals defined inside Dynamics._run
(_dynamics.py lines 330 to 340): the lambda values used for the
finite-difference gradient.  Raises ValueError, modelled as Except.error,
exactly when the increment leaves the unit interval on both sides at once. -/
def generate_lam_vals (lambda_base increment : ℚ) : Except String (List ℚ) :=
  if lambda_base + increment > 1 ∧ lambda_base - increment < 0 then
    Except.error "Increment too large"
  else if lambda_base + increment > 1 then
    Except.ok [lambda_base - increment]
  else if lambda_base - increment < 0 then
    Except.ok [lambda_base + increment]
  else
    Except.ok [lambda_base - increment, lambda_base + increment]

/-- C1, counterexample: at lambda_value 0.0005 with increment 0.001 the code
does NOT raise a configuration error; it returns the single upper neighbour
0.0015, because only the lower neighbour leaves the unit interval. -/
theorem c1_counterexample :
    generate_lam_vals (1/2000) (1/1000) = Except.ok [3/2000] := by
  norm_num [generate_lam_vals]

/-- C1, amended: the first three spec vectors hold as stated; at
lambda_value 0.0005 with increment 0.001 the result is the single neighbour
[0.0015] and no error is raised; an error is raised exactly when the
increment pushes the neighbours out of the unit interval on both sides. -/
theorem c1_amended :
    generate_lam_vals 0 (1/1000) = Except.ok [1/1000]
    ∧ generate_lam_vals 1 (1/1000) = Except.ok [999/1000]
    ∧ generate_lam_vals (1/2) (1/1000) = Except.ok [499/1000, 501/1000]
    ∧ generate_lam_vals (1/2000) (1/1000) = Except.ok [3/2000]
    ∧ ∀ b i : ℚ, (∃ e, generate_lam_vals b i = Except.error e)
        ↔ (b + i > 1 ∧ b - i < 0) := by
  refine ⟨by norm_num [generate_lam_vals], by norm_num [generate_lam_vals],
    by norm_num [generate_lam_vals], by norm_num [generate_lam_vals], ?_⟩
  intro b i
  unfold generate_lam_vals
  split_ifs with h1 h2 h3 <;> simp_all

/-! ### Python list objects

The constructor manipulates the caller-supplied lambda_energy list through
Python reference semantics: list.copy() allocates a fresh object, append
mutates the referenced object in place, sorted() allocates again.  A heap of
list objects makes those effects explicit: a reference is an index into the
store, and reading an unallocated reference yields the empty list. -/

/-- Read the list object behind a reference. -/
def readRef (heap : List (List ℚ)) (r : ℕ) : List ℚ := heap.getD r []

/-- Allocate a fresh Python list object holding v: the new heap and the new
reference. -/
def allocRef (heap : List (List ℚ)) (v : List ℚ) : List (List ℚ) × ℕ :=
  (heap ++ [v], heap.length)

/-- In-place Python list.append on the object behind a reference. -/
def appendRef (heap : List (List ℚ)) (r : ℕ) (x : ℚ) : List (List ℚ) :=
  heap.set r (readRef heap r ++ [x])

/-- Lines 111 to 114 of Dynamics.__init__ (_dynamics.py): the local name
lambda_energy is first rebound to a copy of the caller-supplied list, the
lambda value of the window is appended in place to that copy when absent, and
the name is finally rebound to a freshly allocated sorted list.  Returns the
heap after construction and the reference the session stores. -/
def dynamicsInitLambdaEnergy (heap : List (List ℚ)) (lambda_energy : ℕ)
    (lambda_val : ℚ) : List (List ℚ) × ℕ :=
  let p1 := allocRef heap (readRef heap lambda_energy)
  let h2 := if lambda_val ∈ readRef p1.1 p1.2 then p1.1
    else appendRef p1.1 p1.2 lambda_val
  allocRef h2 (List.insertionSort (· ≤ ·) (readRef h2 p1.2))

/-- The energy-sample lambda list the constructor stores. -/
def storedLambdaEnergy (heap : List (List ℚ)) (lambda_energy : ℕ)
    (lambda_val : ℚ) : List ℚ :=
  readRef (dynamicsInitLambdaEnergy heap lambda_energy lambda_val).1
    (dynamicsInitLambdaEnergy heap lambda_energy lambda_val).2

lemma readRef_alloc_self (heap : List (List ℚ)) (v : List ℚ) :
    readRef (heap ++ [v]) heap.length = v := by
  simp [readRef, List.getD_append_right]

lemma readRef_alloc_lt (heap : List (List ℚ)) (v : List ℚ) (r : ℕ)
    (hr : r < heap.length) : readRef (heap ++ [v]) r = readRef heap r := by
  simp [readRef, List.getD, List.getElem?_append_left hr]

lemma readRef_set_self (heap : List (List ℚ)) (s : ℕ) (v : List ℚ)
    (hs : s < heap.length) : readRef (heap.set s v) s = v := by
  simp [readRef, List.getD, List.getElem?_set_eq_of_lt _ hs]

lemma readRef_set_ne (heap : List (List ℚ)) (s r : ℕ) (v : List ℚ)
    (h : s ≠ r) : readRef (heap.set s v) r = readRef heap r := by
  simp [readRef, List.getD, List.getElem?_set_ne h]

/-- The stored list, written without the heap: the input list with the window
lambda appended when absent, then sorted. -/
theorem storedLambdaEnergy_eq (heap : List (List ℚ)) (r : ℕ) (lv : ℚ) :
    storedLambdaEnergy heap r lv =
      List.insertionSort (· ≤ ·)
        (if lv ∈ readRef heap r then readRef heap r
         else readRef heap r ++ [lv]) := by
  unfold storedLambdaEnergy dynamicsInitLambdaEnergy
  simp only [allocRef, appendRef]
  rw [readRef_alloc_self]
  by_cases hmem : lv ∈ readRef heap r
  · simp only [hmem, if_pos, readRef_alloc_self]
  · simp only [hmem, if_neg, not_false_iff, readRef_alloc_self]
    rw [readRef_set_self _ _ _ (by simp)]

/-- C8, counterexample: sorted() does not deduplicate.  For the input list
[1, 1] and lambda_val 1 the stored energy-sample lambda list is [1, 1],
which contains a duplicate value. -/
theorem c8_counterexample :
    ¬ (storedLambdaEnergy [[(1 : ℚ), 1]] 0 1).Nodup := by
  rw [storedLambdaEnergy_eq]
  simp [readRef, List.insertionSort]

/-- C8, amended: the stored energy-sample lambda list is sorted ascending and
contains the lambda value of the window; it is duplicate-free whenever the
caller-supplied list is duplicate-free (the constructor appends the window
lambda only when absent, but input duplicates survive sorted()). -/
theorem c8_amended (heap : List (List ℚ)) (r : ℕ) (lv : ℚ)
    (hnd : (readRef heap r).Nodup) :
    (storedLambdaEnergy heap r lv).Sorted (· ≤ ·)
    ∧ lv ∈ storedLambdaEnergy heap r lv
    ∧ (storedLambdaEnergy heap r lv).Nodup := by
  rw [storedLambdaEnergy_eq]
  have hperm := List.perm_insertionSort (α := ℚ) (· ≤ ·)
    (if lv ∈ readRef heap r then readRef heap r else readRef heap r ++ [lv])
  refine ⟨List.sorted_insertionSort _ _, ?_, ?_⟩
  · refine hperm.mem_iff.mpr ?_
    by_cases h : lv ∈ readRef heap r <;> simp [h]
  · refine hperm.nodup_iff.mpr ?_
    by_cases h : lv ∈ readRef heap r
    · simpa [h] using hnd
    · simp [List.nodup_append, h, hnd]

/-- C8, witness: a concrete duplicate-free input. -/
theorem c8_amended_witness :
    (storedLambdaEnergy [[(1/2 : ℚ), 1]] 0 0).Sorted (· ≤ ·)
    ∧ (0 : ℚ) ∈ storedLambdaEnergy [[(1/2 : ℚ), 1]] 0 0
    ∧ (storedLambdaEnergy [[(1/2 : ℚ), 1]] 0 0).Nodup :=
  c8_amended [[(1/2 : ℚ), 1]] 0 0 (by norm_num [readRef])

/-- C10: the constructor copies the caller-supplied lambda_energy list before
appending and sorting, so the list object the caller holds is unchanged by
construction. -/
theorem c10_theorem (heap : List (List ℚ)) (r : ℕ) (lv : ℚ)
    (hr : r < heap.length) :
    readRef (dynamicsInitLambdaEnergy heap r lv).1 r = readRef heap r := by
  unfold dynamicsInitLambdaEnergy
  simp only [allocRef, appendRef]
  by_cases hmem : lv ∈ readRef (heap ++ [readRef heap r]) heap.length
  · simp only [hmem, if_pos]
    rw [readRef_alloc_lt _ _ _ (by simp; omega), readRef_alloc_lt _ _ _ hr]
  · simp only [hmem, if_neg, not_false_iff]
    rw [readRef_alloc_lt _ _ _ (by simp; omega),
      readRef_set_ne _ heap.length r _ (by omega),
      readRef_alloc_lt _ _ _ hr]

/-- C10, witness: a concrete caller list survives construction unchanged. -/
theorem c10_witness :
    readRef (dynamicsInitLambdaEnergy [[(1/2 : ℚ)]] 0 (1/4)).1 0
      = readRef [[(1/2 : ℚ)]] 0 :=
  c10_theorem [[(1/2 : ℚ)]] 0 (1/4) (by simp)

/-! ### The scheduler (_runner.py) -/

/-- The simulation platform named by the configuration. -/
inductive Platform
  | cpu
  | cuda
deriving DecidableEq

/-- The slice of the somd2 Config object the scheduler reads and writes. -/
structure RunnerConfig where
  run_parallel : Bool
  platform : Platform
  max_threads : ℕ
  minimise : Bool
  extra_args : List (String × ℕ)
deriving DecidableEq

/-- Lines 289 to 301 of Runner.run: the worker-pool sizing done before
parallel dispatch.  On cpu the worker count is num_lambda capped at
max_threads and each worker is given a thread count (written into
config.extra_args, a config mutation); on cuda the worker count is the
length of the GPU pool, and extra_args is emptied.  Returns the updated
config and max_workers. -/
def runnerParallelSetup (config : RunnerConfig) (num_lambda : ℕ)
    (gpu_pool_size : ℕ) : RunnerConfig × ℕ :=
  match config.platform with
  | Platform.cpu =>
    if num_lambda > config.max_threads then
      ({ config with extra_args := [("threads", 1)] }, config.max_threads)
    else
      ({ config with
          extra_args := [("threads", config.max_threads / num_lambda)] },
        num_lambda)
  | Platform.cuda => ({ config with extra_args := [] }, gpu_pool_size)

/-- Line 319 of Runner.run: the sequential branch writes the full thread
count into config.extra_args on cpu. -/
def runnerSequentialSetup (config : RunnerConfig) : RunnerConfig :=
  match config.platform with
  | Platform.cpu =>
      { config with extra_args := [("threads", config.max_threads)] }
  | Platform.cuda => config

/-- Lines 317 to 326 of Runner.run, the sequential dispatch loop: each
window outcome is appended to the result list, and there is no handler, so
the first window exception propagates out of run and the remaining windows
are never started.  The argument lists the outcome each window would
produce. -/
def runSequential {E R : Type} : List (Except E R) → Except E (List R)
  | [] => Except.ok []
  | Except.error e :: _ => Except.error e
  | Except.ok r :: rest => (runSequential rest).map (fun l => r :: l)

/-- Lines 303 to 315 of Runner.run, the parallel dispatch loop: the jobs
dict is REBUILT in each iteration of the submit loop instead of being
extended, so after the loop it holds only the future of the last lambda
value; as_completed walks that one future, its exception, if any, is
printed and swallowed, and its result, if any, is the only one appended.
Every submitted window still executes inside the executor; the other
futures are simply never read. -/
def runParallel {E R : Type} (outcomes : List (Except E R)) : List R :=
  match outcomes.getLast? with
  | some (Except.ok r) => [r]
  | _ => []

/-- C2: the code diverges from the claim in both dispatch modes.  In
parallel mode two successful windows yield a result list holding only the
last result, and in sequential mode a failing middle window makes run
itself raise, discarding the earlier success and skipping the later
window. -/
theorem c2_theorem :
    runParallel [(Except.ok 0 : Except String ℕ), Except.ok 1] = [1]
    ∧ runSequential [Except.ok (0 : ℕ), Except.error "boom", Except.ok 2]
        = Except.error "boom" := by
  constructor <;> rfl

/-! ### run_window (_runner.py lines 335 to 437) -/

/-- The state of the shared GPU pool and whether run_window raised, after
one cuda-parallel run_window call. -/
structure WindowExit where
  raised : Bool
  pool : List ℕ
deriving DecidableEq

/-- Lines 399 to 421 of Runner.run_window, the cuda parallel branch, as a
function of the shared GPU pool and of whether session construction
(_initialise_simulation) and the session run (the inner _run) raise.  The
first pool entry is taken and removed under the lock; the id is appended
back both on the success path and in the handler that re-raises a session
failure; but an exception from session construction propagates before any
handler that could return the id.  An empty pool raises at the indexing
itself. -/
def runWindowCudaParallel (gpu_pool : List ℕ) (init_raises run_raises : Bool) :
    WindowExit :=
  match gpu_pool with
  | [] => { raised := true, pool := [] }
  | gpu_num :: rest =>
    if init_raises then { raised := true, pool := rest }
    else if run_raises then { raised := true, pool := rest ++ [gpu_num] }
    else { raised := false, pool := rest ++ [gpu_num] }

/-- C3, counterexample: with a pool holding device 0, a session whose
construction raises exits run_window with the exception propagating and the
pool left empty: device 0 is permanently lost. -/
theorem c3_counterexample :
    runWindowCudaParallel [0] true false
      = { raised := true, pool := ([] : List ℕ) } := by
  rfl

/-- C3, amended: the device taken from the pool head is returned on both
exit paths that follow a successful session construction, whether the run
succeeds or raises; but when session construction itself raises, run_window
propagates the exception without returning the device, which is then lost
from the pool. -/
theorem c3_amended (gpu_num : ℕ) (rest : List ℕ) (run_raises : Bool) :
    (runWindowCudaParallel (gpu_num :: rest) false run_raises).pool
        = rest ++ [gpu_num]
    ∧ (runWindowCudaParallel (gpu_num :: rest) false run_raises).raised
        = run_raises
    ∧ (runWindowCudaParallel (gpu_num :: rest) true run_raises).pool = rest := by
  cases run_raises <;> simp [runWindowCudaParallel]

/-- Line 241 and onward of Dynamics._minimisation: minimisation runs at the
pre-set window lambda when no explicit lambda is passed, else at the passed
lambda. -/
def minimisationLambda (lambda_min : Option ℚ) (lambda_val : ℚ) : ℚ :=
  match lambda_min with
  | none => lambda_val
  | some l => l

/-- Lines 356 to 387 of Runner.run_window, the inner _run closure.  The
oracles first and retry give the outcomes of sim._run() and of
sim._run(lambda_minimisation=0.0).  Returns the window outcome together
with the lambda_minimisation argument of every sim._run attempt actually
made, in order.  With minimise on, a first failure is followed by exactly
one retry passing lambda 0.0, whose failure is logged and re-raised; with
minimise off there is no retry at all (the handler only logs, the closure
returns None, and the tuple unpacking at the call site then raises). -/
def runWindowRetry {R : Type} (minimise : Bool)
    (first retry : Except String R) : Except String R × List (Option ℚ) :=
  if minimise then
    match first with
    | Except.ok r => (Except.ok r, [none])
    | Except.error _ =>
      match retry with
      | Except.ok r => (Except.ok r, [none, some 0])
      | Except.error e => (Except.error e, [none, some 0])
  else
    match first with
    | Except.ok r => (Except.ok r, [none])
    | Except.error e => (Except.error e, [none])

/-- C4: with minimisation configured, a window whose first attempt raises is
retried exactly once, that retry passes minimisation lambda 0.0, a failure
of the retry makes the window fail with no further attempt, and no code
path anywhere makes more than one retry (at most two attempts). -/
theorem c4_theorem {R : Type} (lambda_value : ℚ)
    (first retry : Except String R) (hfail : first.isOk = false) :
    (runWindowRetry true first retry).2 = [none, some 0]
    ∧ minimisationLambda (some 0) lambda_value = 0
    ∧ (∀ e, retry = Except.error e →
        (runWindowRetry true first retry).1 = Except.error e)
    ∧ (∀ (m : Bool) (f r : Except String R),
        (runWindowRetry m f r).2.length ≤ 2) := by
  cases first with
  | ok r => simp [Except.isOk, Except.toBool] at hfail
  | error e =>
    refine ⟨?_, rfl, ?_, ?_⟩
    · cases retry <;> rfl
    · intro e' he'
      subst he'
      rfl
    · intro m f r
      cases m <;> cases f <;> cases r <;> simp [runWindowRetry]

/-- C4, witness: a concrete window at lambda 0.3 whose two attempts both
fail. -/
theorem c4_witness :
    (runWindowRetry true (Except.error "first fail")
        ((Except.error "retry fail" : Except String ℕ))).2 = [none, some 0]
    ∧ minimisationLambda (some 0) (3/10) = 0
    ∧ (∀ e, (Except.error "retry fail" : Except String ℕ) = Except.error e →
        (runWindowRetry true (Except.error "first fail")
          ((Except.error "retry fail" : Except String ℕ))).1 = Except.error e)
    ∧ (∀ (m : Bool) (f r : Except String ℕ),
        (runWindowRetry m f r).2.length ≤ 2) :=
  c4_theorem (3/10) (Except.error "first fail")
    ((Except.error "retry fail" : Except String ℕ)) rfl

/-- C7, counterexample: on cuda with three pooled devices and two lambda
windows the worker count is 3, the full pool size, not
min(device_pool_size, num_lambda) = 2. -/
theorem c7_counterexample :
    (runnerParallelSetup
        { run_parallel := true, platform := Platform.cuda, max_threads := 4,
          minimise := true, extra_args := [] } 2 3).2 ≠ min 3 2 := by
  decide

/-- C7, amended: on cpu the worker-pool size is min(max_threads, num_lambda)
and each worker is allotted max_threads / workers threads, floor division;
on cuda the worker-pool size is the device pool size itself, with no cap at
num_lambda. -/
theorem c7_amended (config : RunnerConfig) (num_lambda gpu_pool_size : ℕ)
    (hthreads : 0 < config.max_threads) :
    (config.platform = Platform.cpu →
      (runnerParallelSetup config num_lambda gpu_pool_size).2
          = min config.max_threads num_lambda
      ∧ (runnerParallelSetup config num_lambda gpu_pool_size).1.extra_args
          = [("threads", config.max_threads /
              (runnerParallelSetup config num_lambda gpu_pool_size).2)])
    ∧ (config.platform = Platform.cuda →
      (runnerParallelSetup config num_lambda gpu_pool_size).2
          = gpu_pool_size) := by
  constructor
  · intro hcpu
    rcases Nat.lt_or_ge config.max_threads num_lambda with h | h
    · have hdiv : config.max_threads / config.max_threads = 1 :=
        Nat.div_self hthreads
      simp [runnerParallelSetup, hcpu, h, Nat.min_eq_left (Nat.le_of_lt h),
        hdiv]
    · simp [runnerParallelSetup, hcpu, Nat.not_lt.mpr h,
        Nat.min_eq_right h]
  · intro hcuda
    simp [runnerParallelSetup, hcuda]

/-- C7, witness: concrete cpu configurations on both sides of the cap,
obtained from the amended theorem at max_threads 4. -/
theorem c7_witness :
    (({ run_parallel := true, platform := Platform.cpu, max_threads := 4,
        minimise := true, extra_args := [] } : RunnerConfig).platform
          = Platform.cpu →
      (runnerParallelSetup
          { run_parallel := true, platform := Platform.cpu, max_threads := 4,
            minimise := true, extra_args := [] } 3 0).2 = min 4 3
      ∧ (runnerParallelSetup
          { run_parallel := true, platform := Platform.cpu, max_threads := 4,
            minimise := true, extra_args := [] } 3 0).1.extra_args
          = [("threads", 4 /
              (runnerParallelSetup
                { run_parallel := true, platform := Platform.cpu,
                  max_threads := 4, minimise := true, extra_args := [] }
                3 0).2)])
    ∧ (({ run_parallel := true, platform := Platform.cpu, max_threads := 4,
          minimise := true, extra_args := [] } : RunnerConfig).platform
            = Platform.cuda →
        (runnerParallelSetup
          { run_parallel := true, platform := Platform.cpu, max_threads := 4,
            minimise := true, extra_args := [] } 3 0).2 = 0) :=
  c7_amended
    { run_parallel := true, platform := Platform.cpu, max_threads := 4,
      minimise := true, extra_args := [] } 3 0 (by decide)

/-! ### Dynamics construction and the production block loop (_dynamics.py) -/

/-- The slice of the somd2 Config object the session reads and writes. -/
structure DynConfig where
  runtime : ℚ
  checkpoint_frequency : ℚ
  energy_frequency : ℚ
  restart : Bool
  minimise : Bool
deriving DecidableEq

/-- Lines 96 to 109 of Dynamics.__init__: on a restart the remaining runtime
(written back into the shared config object) is the configured runtime minus
the simulated time persisted on the system, and the resume block index is
int(round(persisted_time / checkpoint_frequency, 12)); otherwise the config
is left alone and the block index starts at zero.  Returns the config after
construction and the resume block index. -/
def dynamicsInitTime (config : DynConfig) (system_time : ℚ) : DynConfig × ℤ :=
  if config.restart then
    ({ config with runtime := config.runtime - system_time },
      pyInt (pyRound 12 (system_time / config.checkpoint_frequency)))
  else (config, 0)

/-- One production block of Dynamics._run: its absolute index, the amount
passed to the dynamics run call, and whether the block is followed by the
checkpoint cycle (trajectory chunk, stream.save, energy parquet write). -/
structure Block where
  index : ℕ
  duration : ℚ
  checkpoints : Bool
deriving DecidableEq

/-- Lines 394 to 534 of Dynamics._run, the production schedule.  With a
positive checkpoint frequency: frac is runtime over checkpoint_frequency;
when frac is below one the checkpoint frequency is overwritten with the
runtime (a config mutation) and frac becomes one; num_blocks is int(frac)
full blocks, each offset by the resume index and followed by a checkpoint;
when the fractional part rem is positive one further block runs for rem
with no checkpoint.  The line rebinding x to the resume index when x is
zero is kept from the source (it never changes the value, as x already
starts at the resume index).  With a non-positive checkpoint frequency the
code makes one run with no checkpoint cycle at all, modelled as a single
checkpoint-free block.  Returns the config after the loop and the blocks in
execution order. -/
def dynamicsProductionBlocks (config : DynConfig) (current_block : ℕ) :
    DynConfig × List Block :=
  if 0 < config.checkpoint_frequency then
    let frac := config.runtime / config.checkpoint_frequency
    let config' := if frac < 1 then
        { config with checkpoint_frequency := config.runtime } else config
    let frac' := if frac < 1 then 1 else frac
    let num_blocks := (pyInt frac').toNat
    let rem := frac' - (num_blocks : ℚ)
    (config',
      (List.range num_blocks).map (fun i =>
        let x := i + current_block
        let x' := if x = 0 then current_block else x
        { index := x', duration := config'.checkpoint_frequency,
          checkpoints := true })
      ++ (if 0 < rem then
            [{ index := current_block + num_blocks, duration := rem,
               checkpoints := false }]
          else []))
  else
    (config, [{ index := current_block,
                duration := config.checkpoint_frequency,
                checkpoints := false }])

/-- Every block the production loop produces has index at least the resume
index: completed indices below it are never produced again. -/
lemma productionBlocks_index_ge (config : DynConfig) (current_block : ℕ) :
    ∀ b ∈ (dynamicsProductionBlocks config current_block).2,
      current_block ≤ b.index := by
  intro b hb
  unfold dynamicsProductionBlocks at hb
  split_ifs at hb with hcf
  · simp only [List.mem_append, List.mem_map, List.mem_range] at hb
    rcases hb with ⟨i, hi, rfl⟩ | hb
    · dsimp only
      split_ifs with h0 <;> omega
    · split_ifs at hb <;>
        simp only [List.mem_singleton, List.not_mem_nil] at hb <;>
        (subst hb; exact Nat.le_add_right _ _)
  · simp only [List.mem_singleton] at hb
    subst hb
    exact le_rfl

/-- C5: on a restarted run the session stores runtime minus persisted time
as the remaining runtime, computes the resume block index as
int(round(persisted_time / checkpoint_frequency, 12)), and every block the
production loop then produces has index at least that resume index, so
block indices completed before the restart are never produced again. -/
theorem c5_theorem (config : DynConfig) (t : ℚ)
    (hrestart : config.restart = true) :
    (dynamicsInitTime config t).1.runtime = config.runtime - t
    ∧ (dynamicsInitTime config t).2
        = pyInt (pyRound 12 (t / config.checkpoint_frequency))
    ∧ ∀ b ∈ (dynamicsProductionBlocks (dynamicsInitTime config t).1
          (dynamicsInitTime config t).2.toNat).2,
        (dynamicsInitTime config t).2.toNat ≤ b.index := by
  refine ⟨?_, ?_, productionBlocks_index_ge _ _⟩
  · simp [dynamicsInitTime, hrestart]
  · simp [dynamicsInitTime, hrestart]

/-- A concrete restarted configuration: 10 time units configured, 4 already
simulated, checkpoints every 2 units. -/
def restartExample : DynConfig :=
  { runtime := 10, checkpoint_frequency := 2, energy_frequency := 1,
    restart := true, minimise := true }

/-- C5, witness: the concrete restarted configuration. -/
theorem c5_witness :
    (dynamicsInitTime restartExample 4).1.runtime
        = restartExample.runtime - 4
    ∧ (dynamicsInitTime restartExample 4).2
        = pyInt (pyRound 12 (4 / restartExample.checkpoint_frequency))
    ∧ ∀ b ∈ (dynamicsProductionBlocks (dynamicsInitTime restartExample 4).1
          (dynamicsInitTime restartExample 4).2.toNat).2,
        (dynamicsInitTime restartExample 4).2.toNat ≤ b.index :=
  c5_theorem restartExample 4 rfl

/-- C6: with positive runtime and checkpoint frequency, when the runtime is
below one checkpoint interval the interval is shrunk to exactly the runtime
and the run is a single full checkpointed block with no remainder; otherwise
the run is floor(runtime / checkpoint_frequency) full checkpointed blocks
followed, exactly when the fractional part of runtime over
checkpoint_frequency is positive, by one terminal block that runs for that
fractional part and performs no checkpoint write. -/
theorem c6_theorem (config : DynConfig) (hr : 0 < config.runtime)
    (hc : 0 < config.checkpoint_frequency) :
    (config.runtime < config.checkpoint_frequency →
      (dynamicsProductionBlocks config 0).1.checkpoint_frequency
          = config.runtime
      ∧ (dynamicsProductionBlocks config 0).2
          = [{ index := 0, duration := config.runtime, checkpoints := true }])
    ∧ (config.checkpoint_frequency ≤ config.runtime →
      (dynamicsProductionBlocks config 0).2
        = (List.range
              (⌊config.runtime / config.checkpoint_frequency⌋).toNat).map
            (fun i =>
              { index := i, duration := config.checkpoint_frequency,
                checkpoints := true })
          ++ (if 0 < config.runtime / config.checkpoint_frequency
                  - (⌊config.runtime / config.checkpoint_frequency⌋ : ℚ) then
                [Block.mk
                    (⌊config.runtime / config.checkpoint_frequency⌋).toNat
                    (config.runtime / config.checkpoint_frequency
                      - (⌊config.runtime / config.checkpoint_frequency⌋ : ℚ))
                    false]
              else [])) := by
  have hfrac_nonneg : 0 ≤ config.runtime / config.checkpoint_frequency :=
    le_of_lt (div_pos hr hc)
  constructor
  · intro hlt
    have h1 : config.runtime / config.checkpoint_frequency < 1 :=
      (div_lt_one hc).mpr hlt
    have hpy : pyInt 1 = 1 := by norm_num [pyInt]
    unfold dynamicsProductionBlocks
    rw [if_pos hc]
    simp [h1, hpy]
    rw [show List.range 1 = [0] from rfl]
    simp
  · intro hge
    have h1 : ¬ config.runtime / config.checkpoint_frequency < 1 :=
      not_lt.mpr ((one_le_div hc).mpr hge)
    have hpy : pyInt (config.runtime / config.checkpoint_frequency)
        = ⌊config.runtime / config.checkpoint_frequency⌋ := by
      simp [pyInt, hfrac_nonneg]
    have hcast :
        ((⌊config.runtime / config.checkpoint_frequency⌋.toNat : ℕ) : ℚ)
          = ((⌊config.runtime / config.checkpoint_frequency⌋ : ℤ) : ℚ) := by
      exact_mod_cast Int.toNat_of_nonneg (Int.floor_nonneg.mpr hfrac_nonneg)
    have hidx : ∀ i : ℕ, (if i = 0 then 0 else i) = i := by
      intro i
      split_ifs <;> omega
    unfold dynamicsProductionBlocks
    rw [if_pos hc]
    simp only [h1, if_neg, not_false_iff, if_false, hpy, hcast,
      Nat.zero_add, Nat.add_zero, hidx]

/-- A concrete production configuration: runtime 5, checkpoints every 2
units, so two full blocks and a fractional remainder of one half. -/
def blockExample : DynConfig :=
  { runtime := 5, checkpoint_frequency := 2, energy_frequency := 1,
    restart := false, minimise := true }

/-- C6, witness: the concrete production configuration. -/
theorem c6_witness :
    (blockExample.runtime < blockExample.checkpoint_frequency →
      (dynamicsProductionBlocks blockExample 0).1.checkpoint_frequency
          = blockExample.runtime
      ∧ (dynamicsProductionBlocks blockExample 0).2
          = [{ index := 0, duration := blockExample.runtime,
               checkpoints := true }])
    ∧ (blockExample.checkpoint_frequency ≤ blockExample.runtime →
      (dynamicsProductionBlocks blockExample 0).2
        = (List.range
              (⌊blockExample.runtime / blockExample.checkpoint_frequency⌋).toNat).map
            (fun i =>
              { index := i, duration := blockExample.checkpoint_frequency,
                checkpoints := true })
          ++ (if 0 < blockExample.runtime / blockExample.checkpoint_frequency
                  - (⌊blockExample.runtime / blockExample.checkpoint_frequency⌋ : ℚ) then
                [Block.mk
                    (⌊blockExample.runtime / blockExample.checkpoint_frequency⌋).toNat
                    (blockExample.runtime / blockExample.checkpoint_frequency
                      - (⌊blockExample.runtime / blockExample.checkpoint_frequency⌋ : ℚ))
                    false]
              else [])) :=
  c6_theorem blockExample (by norm_num [blockExample])
    (by norm_num [blockExample])

/-- C9, counterexample: constructing a session for the concrete restarted
configuration changes the runtime field of the configuration object it was
given, from 10 to 6, so the configuration is not immutable under the core. -/
theorem c9_counterexample :
    (dynamicsInitTime restartExample 4).1.runtime
      ≠ restartExample.runtime := by
  norm_num [dynamicsInitTime, restartExample]

/-- C9, amended: the core mutates exactly three configuration fields and no
other.  Restart construction overwrites runtime with runtime minus the
persisted time (a non-restart construction changes nothing); the production
setup overwrites checkpoint_frequency with the runtime exactly when the
runtime is below one checkpoint interval; and both dispatch modes overwrite
extra_args, every other field being preserved. -/
theorem c9_amended (config : DynConfig) (t : ℚ) (rconfig : RunnerConfig)
    (num_lambda gpu_pool_size : ℕ) :
    (config.restart = true →
      (dynamicsInitTime config t).1
        = { config with runtime := config.runtime - t })
    ∧ (config.restart = false → (dynamicsInitTime config t).1 = config)
    ∧ (0 < config.checkpoint_frequency →
        config.runtime < config.checkpoint_frequency →
        (dynamicsProductionBlocks config 0).1
          = { config with checkpoint_frequency := config.runtime })
    ∧ (0 < config.checkpoint_frequency →
        config.checkpoint_frequency ≤ config.runtime →
        (dynamicsProductionBlocks config 0).1 = config)
    ∧ ((runnerParallelSetup rconfig num_lambda gpu_pool_size).1
        = { rconfig with extra_args :=
              (runnerParallelSetup rconfig num_lambda gpu_pool_size).1.extra_args })
    ∧ (runnerSequentialSetup rconfig
        = { rconfig with
              extra_args := (runnerSequentialSetup rconfig).extra_args }) := by
  refine ⟨?_, ?_, ?_, ?_, ?_, ?_⟩
  · intro h
    simp [dynamicsInitTime, h]
  · intro h
    simp [dynamicsInitTime, h]
  · intro hc hlt
    have h1 : config.runtime / config.checkpoint_frequency < 1 :=
      (div_lt_one hc).mpr hlt
    simp [dynamicsProductionBlocks, hc, h1]
  · intro hc hge
    have h1 : ¬ config.runtime / config.checkpoint_frequency < 1 :=
      not_lt.mpr ((one_le_div hc).mpr hge)
    simp [dynamicsProductionBlocks, hc, h1]
  · obtain ⟨rp, plat, mt, mini, ea⟩ := rconfig
    cases plat <;> by_cases hn : num_lambda > mt <;>
      simp [runnerParallelSetup, hn]
  · obtain ⟨rp, plat, mt, mini, ea⟩ := rconfig
    cases plat <;> simp [runnerSequentialSetup]

end Somd2
